import Mathlib

/-!
Shallow embedding of `src/usb.ts` (Node WebUSB, class `USB`): the permission
store (`allowedDevices`), filter matching (`filterDevice`), request validation
and selection (`requestDevice`), discovery (`getDevices`) and the hot-plug
event relay wired up in the constructor.

Modelling conventions:
* JS `undefined`/absent numeric filter fields are `Option Nat`; JS truthiness
  of a number (`undefined` and `0` are falsy) is `truthyN`, of a string
  (`undefined` and `""` are falsy) is `truthyS`.
* The runtime content of `this.allowedDevices` is a list of `Option USBDevice`
  (`Entry`): in one code path (`requestDevice` with a selection callback that
  resolves with no device) the source pushes the JS value `undefined` onto the
  array, modelled as `none`.
* JS property access on `undefined` throws a `TypeError`; operations that can
  hit such an access return `Except Unit`, `.error ()` standing for the throw.
* Promises settle once: the first `resolve`/`reject` wins, later ones are
  ignored.  `requestDevice` is modelled as a pure function from its inputs
  (options, the adapter enumeration outcome, the configured `devicesFound`
  callback, the current allowed list) to the settled outcome, the new allowed
  list and a flag recording whether the adapter enumeration was invoked.
-/

namespace WebUSB

/-- `iface.alternate` descriptor of an interface: class/subclass/protocol. -/
structure USBAlternateInterface where
  interfaceClass : Nat
  interfaceSubclass : Nat
  interfaceProtocol : Nat
deriving DecidableEq

/-- Interface record; only its `alternate` descriptor is read by `usb.ts`. -/
structure USBInterface where
  alternate : USBAlternateInterface
deriving DecidableEq

/-- `device.configuration`; only `interfaces` is read by `usb.ts`. -/
structure USBConfiguration where
  interfaces : List USBInterface
deriving DecidableEq

/-- Device record as read by `usb.ts`: identity triple, connected flag,
device-level class triple, configuration and the opaque `_handle`. -/
structure USBDevice where
  vendorId : Nat
  productId : Nat
  serialNumber : String
  connected : Bool
  deviceClass : Nat
  deviceSubclass : Nat
  deviceProtocol : Nat
  configuration : USBConfiguration
  handle : Nat
deriving DecidableEq

/-- Filter specification (interface `USBDeviceFilter`): all criteria optional. -/
structure USBDeviceFilter where
  vendorId : Option Nat := none
  productId : Option Nat := none
  classCode : Option Nat := none
  subclassCode : Option Nat := none
  protocolCode : Option Nat := none
  serialnumber : Option String := none
deriving DecidableEq

/-- `requestDevice` options: the `filters` member. -/
structure USBDeviceRequestOptions where
  filters : List USBDeviceFilter
deriving DecidableEq

/-- JS truthiness of an optional number: `undefined` and `0` are falsy. -/
def truthyN : Option Nat → Bool
  | none => false
  | some n => n != 0

/-- JS truthiness of an optional string: `undefined` and `""` are falsy. -/
def truthyS : Option String → Bool
  | none => false
  | some s => s != ""

/-- One line of `filterDevice`: `if (filter.x && filter.x !== v) return false` —
`true` when the guarded mismatch fires. -/
def chkN (o : Option Nat) (v : Nat) : Bool :=
  truthyN o && o.getD 0 != v

/-- String variant of `chkN`, for the `serialnumber` criterion. -/
def chkS (o : Option String) (v : String) : Bool :=
  truthyS o && o.getD "" != v

/-- Body of the inner `device.configuration.interfaces.some(iface => ...)`
callback in `filterDevice` (usb.ts lines 145-156). -/
def matchIface (f : USBDeviceFilter) (i : USBInterface) : Bool :=
  if chkN f.classCode i.alternate.interfaceClass then false
  else if chkN f.subclassCode i.alternate.interfaceSubclass then false
  else if chkN f.protocolCode i.alternate.interfaceProtocol then false
  else true

/-- Body of the outer `options.filters.some(filter => ...)` callback in
`filterDevice` (usb.ts lines 134-174): vendor, product, the interface-level
class block (which returns `true` immediately on a match), then device-level
class/subclass/protocol and the serial number. -/
def matchFilter (f : USBDeviceFilter) (d : USBDevice) : Bool :=
  if chkN f.vendorId d.vendorId then false
  else if chkN f.productId d.productId then false
  else if truthyN f.classCode && d.configuration.interfaces.any (matchIface f) then true
  else if chkN f.classCode d.deviceClass then false
  else if chkN f.subclassCode d.deviceSubclass then false
  else if chkN f.protocolCode d.deviceProtocol then false
  else if chkS f.serialnumber d.serialNumber then false
  else true

/-- `USB.filterDevice` (usb.ts lines 133-175). -/
def filterDevice (options : USBDeviceRequestOptions) (d : USBDevice) : Bool :=
  options.filters.any (fun f => matchFilter f d)

/-- `USB.isSameDevice` (usb.ts lines 127-131): identity triple equality. -/
def isSameDevice (d1 d2 : USBDevice) : Bool :=
  d1.productId == d2.productId
    && d1.vendorId == d2.vendorId
    && d1.serialNumber == d2.serialNumber

/-- One slot of the runtime `this.allowedDevices` array: a device record, or
the JS value `undefined` (`none`), which the source can push (see
`requestDevice`). -/
abbrev Entry := Option USBDevice

/-- The `for (const i in this.allowedDevices)` loop of `USB.replaceAllowedDevice`
(usb.ts lines 117-124) for a defined `device`: on the first entry with the same
identity, overwrite it and stop with `true`; reading a property of an
`undefined` entry inside `isSameDevice` throws (`.error ()`); otherwise `false`
with the list unchanged. -/
def replaceLoop (d : USBDevice) : List Entry → Except Unit (Bool × List Entry)
  | [] => .ok (false, [])
  | some e :: rest =>
    if isSameDevice d e then .ok (true, some d :: rest)
    else
      match replaceLoop d rest with
      | .ok (b, rest2) => .ok (b, some e :: rest2)
      | .error u => .error u
  | none :: _ => .error ()

/-- `USB.replaceAllowedDevice` (usb.ts lines 116-125) on an arbitrary runtime
argument.  With `device` equal to `undefined` (`none`), the first loop
iteration evaluates `undefined.productId` and throws; an empty list never
enters the loop and returns `false`. -/
def replaceAllowedDevice : Entry → List Entry → Except Unit (Bool × List Entry)
  | some d, l => replaceLoop d l
  | none, [] => .ok (false, [])
  | none, _ :: _ => .error ()

/-- `selectFn` inside `requestDevice` (usb.ts lines 258-261):
`if (!this.replaceAllowedDevice(device)) this.allowedDevices.push(device)`,
returning the new allowed list (the accompanying `resolve(device)` is handled
by the caller). -/
def selectFn (e : Entry) (l : List Entry) : Except Unit (List Entry) :=
  match replaceAllowedDevice e l with
  | .ok (true, l2) => .ok l2
  | .ok (false, l2) => .ok (l2 ++ [e])
  | .error u => .error u

/-- Rejection kinds of `requestDevice` reachable in the typed model. -/
inductive RequestError where
  /-- "requestDevice error: subclass code is required" -/
  | subclassRequired
  /-- "requestDevice error: class code is required" -/
  | classRequired
  /-- "requestDevice error: no devices found" -/
  | noDevicesFound
  /-- "selected device not found" -/
  | selectedDeviceNotFound
  /-- "requestDevice error: ..." wrapping an adapter failure or a thrown
  `TypeError`, caught by the final `.catch` -/
  | wrapped (msg : String)
deriving DecidableEq

/-- Body of the `options.filters.every(filter => ...)` validation callback
(usb.ts lines 231-246): the rejection this filter triggers, if any.  Protocol
without subclass is checked before subclass without class. -/
def checkFilter (f : USBDeviceFilter) : Option RequestError :=
  if truthyN f.protocolCode && !truthyN f.subclassCode then some .subclassRequired
  else if truthyN f.subclassCode && !truthyN f.classCode then some .classRequired
  else none

/-- The `every` traversal: first offending filter rejects, later filters are
not inspected. -/
def checkFilters : List USBDeviceFilter → Option RequestError
  | [] => none
  | f :: fs =>
    match checkFilter f with
    | some e => some e
    | none => checkFilters fs

/-- Settled outcome of one `requestDevice` call: how the promise settled, the
resulting `allowedDevices` content, and whether `adapter.listUSBDevices()`
was invoked. -/
structure RequestOutcome where
  result : Except RequestError USBDevice
  allowed : List Entry
  enumerated : Bool

/-- `USB.requestDevice` (usb.ts lines 208-278) in the typed model (the dynamic
shape checks on `options`/`filters` are enforced by the types here).
Parameters: the configured `devicesFound` callback (as a function from the
matched candidates to the device it resolves with, `none` for `undefined`),
the adapter enumeration outcome, the request options, and the current allowed
list.  Faithful points: an interface match in `filterDevice` was applied
already during candidate filtering; when the callback resolves with no device
the code rejects but still runs `selectFn.call(this, undefined)` (there is no
`return` before line 272), so the allowed list can still change; any throw in
that continuation reaches the final `.catch`, whose second `reject` is ignored
because the promise already settled. -/
def requestDevice (devicesFound : Option (List USBDevice → Option USBDevice))
    (adapterList : Except String (List USBDevice))
    (options : USBDeviceRequestOptions) (allowed : List Entry) : RequestOutcome :=
  match checkFilters options.filters with
  | some e => ⟨.error e, allowed, false⟩
  | none =>
    match adapterList with
    | .error msg => ⟨.error (.wrapped msg), allowed, true⟩
    | .ok devices =>
      match devices.filter (fun d => filterDevice options d) with
      | [] => ⟨.error .noDevicesFound, allowed, true⟩
      | d0 :: rest =>
        match devicesFound with
        | none =>
          -- no devicesFound function: select the first device found
          match selectFn (some d0) allowed with
          | .ok l2 => ⟨.ok d0, l2, true⟩
          | .error _ => ⟨.error (.wrapped "TypeError"), allowed, true⟩
        | some cb =>
          match cb (d0 :: rest) with
          | some d =>
            match selectFn (some d) allowed with
            | .ok l2 => ⟨.ok d, l2, true⟩
            | .error _ => ⟨.error (.wrapped "TypeError"), allowed, true⟩
          | none =>
            -- reject("selected device not found") fires first; the missing
            -- `return` then runs selectFn with `undefined` anyway
            match selectFn none allowed with
            | .ok l2 => ⟨.error .selectedDeviceNotFound, l2, true⟩
            | .error _ => ⟨.error .selectedDeviceNotFound, allowed, true⟩

/-- The `for` loop inside the `getDevices` filter callback (usb.ts lines
190-196): does some allowed entry have the same identity?  Hits a throw on an
`undefined` entry reached before a match. -/
def allowedMatchLoop (d : USBDevice) : List Entry → Except Unit Bool
  | [] => .ok false
  | some e :: rest => if isSameDevice d e then .ok true else allowedMatchLoop d rest
  | none :: _ => .error ()

/-- `USB.getDevices` (usb.ts lines 181-201): filter the adapter enumeration,
keeping connected devices whose identity matches an allowed entry; the
allowed list itself is only read. -/
def getDevices (allowed : List Entry) : List USBDevice → Except Unit (List USBDevice)
  | [] => .ok []
  | d :: ds =>
    if d.connected then
      match allowedMatchLoop d allowed with
      | .error u => .error u
      | .ok true =>
        match getDevices allowed ds with
        | .ok r => .ok (d :: r)
        | .error u => .error u
      | .ok false => getDevices allowed ds
    else getDevices allowed ds

/-- `deviceConnectCallback` (usb.ts lines 71-76): on an adapter connect
notification, replace a matching allowed entry and emit `connect` with the
new record; otherwise do nothing.  Returns the new allowed list and the
emitted payload (if any). -/
def deviceConnectCallback (d : USBDevice) (l : List Entry) :
    Except Unit (List Entry × Option USBDevice) :=
  match replaceLoop d l with
  | .ok (true, l2) => .ok (l2, some d)
  | .ok (false, _) => .ok (l, none)
  | .error u => .error u

/-- The two re-emitted event kinds the constructor's `newListener` /
`removeListener` handlers react to (other event names fall through both
`if` branches and change nothing). -/
inductive EventKind where
  | connect
  | disconnect
deriving DecidableEq

/-- Observable listener/subscription state of one Controller: listener counts
per event kind, and how many live `adapter.addListener` registrations the
Controller currently holds per native event. -/
structure RelayState where
  connectCount : Nat
  disconnectCount : Nat
  connectSubs : Nat
  disconnectSubs : Nat
deriving DecidableEq

/-- State at the end of the constructor (usb.ts lines 65-114): no listeners,
no adapter subscriptions. -/
def relayInit : RelayState := ⟨0, 0, 0, 0⟩

/-- The `newListener` handler (usb.ts lines 87-99).  Node emits `newListener`
before the listener is added, so `listenerCount(event)` is the count prior to
the addition; the adapter subscription is created only when it is `0`. -/
def onNewListener (k : EventKind) (s : RelayState) : RelayState :=
  match k with
  | .connect =>
    if s.connectCount != 0 then s
    else { s with connectSubs := s.connectSubs + 1 }
  | .disconnect =>
    if s.disconnectCount != 0 then s
    else { s with disconnectSubs := s.disconnectSubs + 1 }

/-- The `removeListener` handler (usb.ts lines 101-113).  Node emits
`removeListener` after the removal, so the count is post-removal; the adapter
registration is removed only when it reached `0`. -/
def onRemoveListener (k : EventKind) (s : RelayState) : RelayState :=
  match k with
  | .connect =>
    if s.connectCount != 0 then s
    else { s with connectSubs := s.connectSubs - 1 }
  | .disconnect =>
    if s.disconnectCount != 0 then s
    else { s with disconnectSubs := s.disconnectSubs - 1 }

/-- Caller-side listener operations on the Controller. -/
inductive RelayOp where
  /-- `usb.on(k, listener)` / `usb.addListener(k, listener)` -/
  | add (k : EventKind)
  /-- `usb.removeListener(k, listener)` for a listener that is currently
  registered (removing an unknown listener emits no `removeListener` event
  and changes nothing, so it is the identity and not modelled as an op) -/
  | remove (k : EventKind)
deriving DecidableEq

/-- Effect of one listener operation: `add` fires `newListener` first, then
registers the listener; `remove` on an empty listener list is a no-op (Node
emits `removeListener` only when a listener was actually removed), otherwise
it unregisters and then fires `removeListener`. -/
def applyRelayOp (s : RelayState) : RelayOp → RelayState
  | .add .connect =>
    let s2 := onNewListener .connect s
    { s2 with connectCount := s2.connectCount + 1 }
  | .add .disconnect =>
    let s2 := onNewListener .disconnect s
    { s2 with disconnectCount := s2.disconnectCount + 1 }
  | .remove .connect =>
    if s.connectCount = 0 then s
    else onRemoveListener .connect { s with connectCount := s.connectCount - 1 }
  | .remove .disconnect =>
    if s.disconnectCount = 0 then s
    else onRemoveListener .disconnect { s with disconnectCount := s.disconnectCount - 1 }

/-- Run a sequence of listener operations from the post-constructor state. -/
def runRelay (ops : List RelayOp) : RelayState :=
  ops.foldl applyRelayOp relayInit

/-- Specification-side replacement (for refinement statements): overwrite the
first entry with the chosen device's identity triple. -/
def specReplaceFirst (d : USBDevice) : List USBDevice → List USBDevice
  | [] => []
  | e :: rest => if isSameDevice d e then d :: rest else e :: specReplaceFirst d rest

/-- Specification-side selection update, following the spec's words: if the
chosen device's identity triple matches an existing allowed-device entry,
replace that entry's record in place; otherwise append it as a new entry. -/
def specReplaceOrAppend (d : USBDevice) (l : List USBDevice) : List USBDevice :=
  if l.any (fun e => isSameDevice d e) then specReplaceFirst d l else l ++ [d]

/-- No two entries of the list share an identity triple. -/
def uniqueIds : List USBDevice → Bool
  | [] => true
  | d :: rest => rest.all (fun e => !isSameDevice d e) && uniqueIds rest

/-- Normalisation witness for the zero-is-absent claims: turn an explicit `0`
criterion into an absent one. -/
def zeroToNone (o : Option Nat) : Option Nat :=
  if o = some 0 then none else o

/-- Apply `zeroToNone` to every numeric criterion of a filter. -/
def zeroNorm (f : USBDeviceFilter) : USBDeviceFilter where
  vendorId := zeroToNone f.vendorId
  productId := zeroToNone f.productId
  classCode := zeroToNone f.classCode
  subclassCode := zeroToNone f.subclassCode
  protocolCode := zeroToNone f.protocolCode
  serialnumber := f.serialnumber

/-- The invariant of the hot-plug relay: per event kind, exactly one adapter
subscription while at least one listener is registered, none otherwise. -/
def relayInv (s : RelayState) : Prop :=
  (s.connectSubs = if s.connectCount = 0 then 0 else 1)
    ∧ (s.disconnectSubs = if s.disconnectCount = 0 then 0 else 1)

/-- Sample device: device-level class 0, one interface with alternate class 3
(HID), serial "Y". -/
def devIf : USBDevice := ⟨0x2341, 0x8036, "Y", true, 0, 0, 0, ⟨[⟨⟨3, 0, 0⟩⟩]⟩, 7⟩

/-- Sample device A. -/
def devA : USBDevice := ⟨1, 2, "A", true, 0, 0, 0, ⟨[]⟩, 1⟩

/-- Sample device with the same identity triple as `devA` but disconnected
and with a different handle. -/
def devB : USBDevice := ⟨1, 2, "A", false, 0, 0, 0, ⟨[]⟩, 2⟩

/-- Sample device with an identity triple distinct from `devA`. -/
def devC : USBDevice := ⟨9, 9, "C", true, 0, 0, 0, ⟨[]⟩, 3⟩

/-- Sample filter with both a class-family criterion and a serial-number
criterion; its serial "X" differs from `devIf`'s serial "Y". -/
def fltCS : USBDeviceFilter := { classCode := some 3, serialnumber := some "X" }

/-- Sample filter with an explicit zero criterion. -/
def fltW : USBDeviceFilter := { vendorId := some 0, classCode := some 3 }

/-- Sample request options: vendor 1 only. -/
def optsW : USBDeviceRequestOptions := ⟨[{ vendorId := some 1 }]⟩

/-! Helper lemmas. -/

theorem isSameDevice_iff (a b : USBDevice) :
    isSameDevice a b = true ↔
      a.productId = b.productId ∧ a.vendorId = b.vendorId
        ∧ a.serialNumber = b.serialNumber := by
  simp [isSameDevice, Bool.and_eq_true, and_assoc]

theorem isSameDevice_symm (a b : USBDevice) :
    isSameDevice a b = isSameDevice b a := by
  rw [Bool.eq_iff_iff, isSameDevice_iff, isSameDevice_iff]
  constructor <;> rintro ⟨h1, h2, h3⟩ <;> exact ⟨h1.symm, h2.symm, h3.symm⟩

theorem isSameDevice_congr_left (a b c : USBDevice) (hab : isSameDevice a b = true) :
    isSameDevice a c = isSameDevice b c := by
  obtain ⟨h1, h2, h3⟩ := (isSameDevice_iff a b).1 hab
  rw [Bool.eq_iff_iff, isSameDevice_iff, isSameDevice_iff, h1, h2, h3]

theorem replaceLoop_map_some (d : USBDevice) (l : List USBDevice) :
    replaceLoop d (l.map some)
      = .ok (l.any (fun e => isSameDevice d e), (specReplaceFirst d l).map some) := by
  induction l with
  | nil => rfl
  | cons e rest ih =>
    by_cases h : isSameDevice d e = true
    · simp [replaceLoop, specReplaceFirst, h]
    · simp only [Bool.not_eq_true] at h
      simp [replaceLoop, specReplaceFirst, h, ih]

theorem specReplaceFirst_of_no_match (d : USBDevice) (l : List USBDevice)
    (h : l.any (fun e => isSameDevice d e) = false) : specReplaceFirst d l = l := by
  induction l with
  | nil => rfl
  | cons e rest ih =>
    simp only [List.any_cons, Bool.or_eq_false_iff] at h
    simp [specReplaceFirst, h.1, ih h.2]

theorem replaceAllowedDevice_some (d : USBDevice) (l : List Entry) :
    replaceAllowedDevice (some d) l = replaceLoop d l := rfl

theorem selectFn_map_some (d : USBDevice) (l : List USBDevice) :
    selectFn (some d) (l.map some) = .ok ((specReplaceOrAppend d l).map some) := by
  unfold selectFn specReplaceOrAppend
  rw [replaceAllowedDevice_some, replaceLoop_map_some]
  by_cases h : l.any (fun e => isSameDevice d e) = true
  · simp [h]
  · simp only [Bool.not_eq_true] at h
    simp [h, specReplaceFirst_of_no_match d l h]

theorem allowedMatchLoop_map_some (d : USBDevice) (l : List USBDevice) :
    allowedMatchLoop d (l.map some) = .ok (l.any (fun e => isSameDevice d e)) := by
  induction l with
  | nil => rfl
  | cons e rest ih =>
    by_cases h : isSameDevice d e = true
    · simp [allowedMatchLoop, h]
    · simp only [Bool.not_eq_true] at h
      simp [allowedMatchLoop, h, ih]

theorem mem_specReplaceFirst (d x : USBDevice) (l : List USBDevice)
    (h : x ∈ specReplaceFirst d l) : x = d ∨ x ∈ l := by
  induction l with
  | nil => simp [specReplaceFirst] at h
  | cons e rest ih =>
    by_cases he : isSameDevice d e = true
    · simp only [specReplaceFirst, he, if_pos, List.mem_cons] at h
      rcases h with h | h
      · exact Or.inl h
      · exact Or.inr (List.mem_cons_of_mem _ h)
    · simp only [specReplaceFirst, he, if_neg, Bool.not_eq_true, List.mem_cons] at h
      rcases h with h | h
      · exact Or.inr (by simp [h])
      · rcases ih h with h2 | h2
        · exact Or.inl h2
        · exact Or.inr (List.mem_cons_of_mem _ h2)

theorem uniqueIds_specReplaceFirst (d : USBDevice) (l : List USBDevice)
    (hu : uniqueIds l = true) : uniqueIds (specReplaceFirst d l) = true := by
  induction l with
  | nil => rfl
  | cons e rest ih =>
    simp only [uniqueIds, Bool.and_eq_true, List.all_eq_true] at hu
    obtain ⟨hall, hrest⟩ := hu
    by_cases he : isSameDevice d e = true
    · simp only [specReplaceFirst, he, if_pos]
      simp only [uniqueIds, Bool.and_eq_true, List.all_eq_true]
      refine ⟨fun x hx => ?_, hrest⟩
      rw [isSameDevice_congr_left d e x he]
      exact hall x hx
    · simp only [Bool.not_eq_true] at he
      simp only [specReplaceFirst, he, if_neg, Bool.false_eq_true, not_false_eq_true]
      simp only [uniqueIds, Bool.and_eq_true, List.all_eq_true]
      refine ⟨fun x hx => ?_, ih hrest⟩
      rcases mem_specReplaceFirst d x rest hx with hxd | hx2
      · subst hxd
        simp only [Bool.not_eq_true']
        rw [isSameDevice_symm]
        exact he
      · exact hall x hx2

theorem uniqueIds_append_of_no_match (d : USBDevice) (l : List USBDevice)
    (hu : uniqueIds l = true) (h : l.any (fun e => isSameDevice d e) = false) :
    uniqueIds (l ++ [d]) = true := by
  induction l with
  | nil => rfl
  | cons e rest ih =>
    simp only [List.any_cons, Bool.or_eq_false_iff] at h
    simp only [uniqueIds, Bool.and_eq_true, List.all_eq_true] at hu
    obtain ⟨hall, hrest⟩ := hu
    simp only [List.cons_append, uniqueIds, Bool.and_eq_true, List.all_eq_true]
    refine ⟨fun x hx => ?_, ih hrest h.2⟩
    rcases List.mem_append.1 hx with hx | hx
    · exact hall x hx
    · simp only [List.mem_singleton] at hx
      subst hx
      simp only [Bool.not_eq_true']
      rw [isSameDevice_symm]
      exact h.1

theorem uniqueIds_specReplaceOrAppend (d : USBDevice) (l : List USBDevice)
    (hu : uniqueIds l = true) : uniqueIds (specReplaceOrAppend d l) = true := by
  unfold specReplaceOrAppend
  by_cases h : l.any (fun e => isSameDevice d e) = true
  · simp [h, uniqueIds_specReplaceFirst d l hu]
  · simp only [Bool.not_eq_true] at h
    simp [h, uniqueIds_append_of_no_match d l hu h]

theorem getDevices_map_some (l : List USBDevice) (devices : List USBDevice) :
    getDevices (l.map some) devices
      = .ok (devices.filter
          (fun d => d.connected && l.any (fun e => isSameDevice d e))) := by
  induction devices with
  | nil => rfl
  | cons d ds ih =>
    by_cases hc : d.connected = true
    · by_cases hm : l.any (fun e => isSameDevice d e) = true
      · simp [getDevices, allowedMatchLoop_map_some, hc, hm, ih, List.filter_cons]
      · simp only [Bool.not_eq_true] at hm
        simp [getDevices, allowedMatchLoop_map_some, hc, hm, ih, List.filter_cons]
    · simp only [Bool.not_eq_true] at hc
      simp [getDevices, hc, ih, List.filter_cons]

theorem relayInv_step (s : RelayState) (o : RelayOp) (h : relayInv s) :
    relayInv (applyRelayOp s o) := by
  obtain ⟨h1, h2⟩ := h
  rcases o with k | k <;> rcases k <;>
    simp only [applyRelayOp, onNewListener, onRemoveListener, relayInv] <;>
    split_ifs at * <;>
    simp_all

theorem relayInv_foldl (ops : List RelayOp) (s : RelayState) (h : relayInv s) :
    relayInv (ops.foldl applyRelayOp s) := by
  induction ops generalizing s with
  | nil => exact h
  | cons o rest ih => exact ih _ (relayInv_step s o h)

theorem truthyN_zeroToNone (o : Option Nat) : truthyN (zeroToNone o) = truthyN o := by
  rcases o with _ | n
  · rfl
  · by_cases h : n = 0 <;> simp [zeroToNone, truthyN, h]

theorem chkN_zeroToNone (o : Option Nat) (v : Nat) :
    chkN (zeroToNone o) v = chkN o v := by
  rcases o with _ | n
  · rfl
  · by_cases h : n = 0 <;> simp [zeroToNone, chkN, truthyN, h]

theorem matchIface_zeroNorm (f : USBDeviceFilter) :
    matchIface (zeroNorm f) = matchIface f := by
  funext i
  simp only [matchIface, zeroNorm, chkN_zeroToNone]

theorem checkFilters_append_of_valid (pre fs : List USBDeviceFilter)
    (hpre : ∀ g ∈ pre, checkFilter g = none) :
    checkFilters (pre ++ fs) = checkFilters fs := by
  induction pre with
  | nil => rfl
  | cons g rest ih =>
    have hg : checkFilter g = none := hpre g (List.mem_cons_self g rest)
    simp only [List.cons_append, checkFilters, hg]
    exact ih (fun x hx => hpre x (List.mem_cons_of_mem _ hx))

theorem requestDevice_of_checkFilters_some
    (df : Option (List USBDevice → Option USBDevice))
    (a : Except String (List USBDevice)) (options : USBDeviceRequestOptions)
    (allowed : List Entry) (e : RequestError)
    (h : checkFilters options.filters = some e) :
    requestDevice df a options allowed = ⟨.error e, allowed, false⟩ := by
  unfold requestDevice
  rw [h]

/-! Claim theorems. -/

/-- C1, counterexample to the claim as stated: the filter `fltCS` sets both a
class-family criterion (`classCode = 3`) and a serial-number criterion
(`serialnumber = "X"`); on device `devIf` an interface's alternate descriptor
fully satisfies the class-family criteria, the device-level serial-number
criterion fails (`devIf.serialNumber = "Y"`), yet `matchFilter` still matches
the device: the serial-number check is never reached on the interface-match
path. -/
theorem C1_counterexample :
    matchFilter fltCS devIf = true
      ∧ devIf.configuration.interfaces.any (matchIface fltCS) = true
      ∧ chkS fltCS.serialnumber devIf.serialNumber = true := by
  decide

/-- C1, amended: when the vendor and product criteria pass and some
interface's alternate descriptor fully satisfies a set class-family
criterion, `matchFilter` returns `true` immediately — the device-level
class/subclass/protocol and serial-number criteria are not evaluated at all
(the filter matches even when the serial-number criterion fails). -/
theorem C1_interface_match_short_circuits (f : USBDeviceFilter) (d : USBDevice)
    (hv : chkN f.vendorId d.vendorId = false)
    (hp : chkN f.productId d.productId = false)
    (hc : truthyN f.classCode = true)
    (hi : d.configuration.interfaces.any (matchIface f) = true) :
    matchFilter f d = true := by
  simp [matchFilter, hv, hp, hc, hi]

/-- C1, witness for the amended theorem at the concrete filter `fltCS` and
device `devIf`. -/
theorem C1_witness :
    chkN fltCS.vendorId devIf.vendorId = false
      ∧ chkN fltCS.productId devIf.productId = false
      ∧ truthyN fltCS.classCode = true
      ∧ devIf.configuration.interfaces.any (matchIface fltCS) = true
      ∧ matchFilter fltCS devIf = true :=
  ⟨by decide, by decide, by decide, by decide,
    C1_interface_match_short_circuits fltCS devIf
      (by decide) (by decide) (by decide) (by decide)⟩

/-- C2: at the failing input (empty allowed list, one matching device, a
configured selection callback resolving with no device) `requestDevice`
rejects with the "selected device not found" kind but, because nothing stops
the continuation after that `reject`, it still runs `selectFn` with
`undefined` and pushes it onto `allowedDevices`: the allowed list changes
from `[]` to `[none]` even though the operation failed. -/
theorem C2_failed_selection_mutates_allowed :
    requestDevice (some (fun _ => none)) (.ok [devA]) ⟨[{}]⟩ []
        = ⟨.error .selectedDeviceNotFound, [none], true⟩
      ∧ ([none] : List Entry) ≠ [] :=
  ⟨rfl, by decide⟩

/-- C3: with any prefix of valid filters, the first invalid filter determines
the rejection — protocol without subclass gives "subclass code is required",
subclass without class gives "class code is required" — the filters after it
are arbitrary (never inspected), the allowed list is unchanged, and the
adapter enumeration is not invoked (the outcome is independent of the adapter
argument and its `enumerated` flag is `false`). -/
theorem C3_validation_short_circuits
    (df : Option (List USBDevice → Option USBDevice))
    (a : Except String (List USBDevice)) (allowed : List Entry)
    (pre post : List USBDeviceFilter) (f : USBDeviceFilter)
    (hpre : ∀ g ∈ pre, checkFilter g = none) :
    (truthyN f.protocolCode = true → truthyN f.subclassCode = false →
      requestDevice df a ⟨pre ++ f :: post⟩ allowed
        = ⟨.error .subclassRequired, allowed, false⟩)
    ∧ (truthyN f.subclassCode = true → truthyN f.classCode = false →
      requestDevice df a ⟨pre ++ f :: post⟩ allowed
        = ⟨.error .classRequired, allowed, false⟩) := by
  constructor
  · intro hp hs
    refine requestDevice_of_checkFilters_some df a _ allowed _ ?_
    show checkFilters (pre ++ f :: post) = some .subclassRequired
    rw [checkFilters_append_of_valid pre (f :: post) hpre]
    simp [checkFilters, checkFilter, hp, hs]
  · intro hs hc
    refine requestDevice_of_checkFilters_some df a _ allowed _ ?_
    show checkFilters (pre ++ f :: post) = some .classRequired
    rw [checkFilters_append_of_valid pre (f :: post) hpre]
    simp [checkFilters, checkFilter, hs, hc]

/-- C3, witness: a valid wildcard filter followed by `{protocolCode: 1}`
rejects with "subclass code is required" without consulting the adapter (here
the adapter would fail), leaving the allowed list unchanged; the later
invalid filter `{subclassCode: 5}` is never checked. -/
theorem C3_witness :
    (∀ g ∈ [({} : USBDeviceFilter)], checkFilter g = none)
      ∧ requestDevice none (.error "transport down")
          ⟨[{}, { protocolCode := some 1 }, { subclassCode := some 5 }]⟩ []
        = ⟨.error .subclassRequired, [], false⟩ :=
  ⟨by decide,
    (C3_validation_short_circuits none (.error "transport down") [] [{}]
      [{ subclassCode := some 5 }] { protocolCode := some 1 }
      (by decide)).1 (by decide) (by decide)⟩

/-- C4: an empty filter sequence passes the hierarchy validation (there is no
filter to reject), matches no device (`filterDevice` is `false` for every
device), and `requestDevice` reaches the adapter enumeration and rejects with
the "no devices found" kind, leaving the allowed list unchanged. -/
theorem C4_empty_filters_not_found
    (df : Option (List USBDevice → Option USBDevice))
    (devices : List USBDevice) (allowed : List Entry) :
    (∀ d : USBDevice, filterDevice ⟨[]⟩ d = false)
      ∧ requestDevice df (.ok devices) ⟨[]⟩ allowed
          = ⟨.error .noDevicesFound, allowed, true⟩ := by
  refine ⟨fun d => rfl, ?_⟩
  unfold requestDevice
  simp [checkFilters, filterDevice]

/-- C5: `getDevices` on an allowed list of device records returns exactly the
enumerated devices that are connected and whose identity triple matches some
allowed entry, in adapter enumeration order (`List.filter` keeps the order of
its input); the allowed list is only read. -/
theorem C5_getDevices_connected_allowed_subsequence
    (l : List USBDevice) (devices : List USBDevice) :
    getDevices (l.map some) devices
      = .ok (devices.filter
          (fun d => d.connected && l.any (fun e => isSameDevice d e))) :=
  getDevices_map_some l devices

/-- C6: on a uniquely-identified allowed list, the selection update of
`requestDevice` (`selectFn`) replaces in place the entry whose identity
triple matches the chosen device, or appends the device when no entry
matches (`specReplaceOrAppend` is exactly that case split), and the
resulting list again has no two entries with the same identity triple. -/
theorem C6_selection_preserves_uniqueness (d : USBDevice) (l : List USBDevice)
    (h : uniqueIds l = true) :
    selectFn (some d) (l.map some) = .ok ((specReplaceOrAppend d l).map some)
      ∧ uniqueIds (specReplaceOrAppend d l) = true :=
  ⟨selectFn_map_some d l, uniqueIds_specReplaceOrAppend d l h⟩

/-- C6, witness: selecting `devB` (same identity triple as `devA`) on the
allowed list `[devA, devC]` replaces the `devA` entry in place and keeps the
identities unique. -/
theorem C6_witness :
    uniqueIds [devA, devC] = true
      ∧ (selectFn (some devB) ([devA, devC].map some)
            = .ok ((specReplaceOrAppend devB [devA, devC]).map some)
        ∧ uniqueIds (specReplaceOrAppend devB [devA, devC]) = true) :=
  ⟨by decide, C6_selection_preserves_uniqueness devB [devA, devC] (by decide)⟩

/-- C7: after any sequence of listener add/remove operations from the
post-constructor state, and for each event kind independently, the Controller
holds exactly one adapter subscription when at least one listener for that
kind is registered and none when no listener is registered. -/
theorem C7_one_subscription_iff_listeners (ops : List RelayOp) :
    ((runRelay ops).connectSubs
        = if (runRelay ops).connectCount = 0 then 0 else 1)
      ∧ ((runRelay ops).disconnectSubs
        = if (runRelay ops).disconnectCount = 0 then 0 else 1) :=
  relayInv_foldl ops relayInit ⟨rfl, rfl⟩

/-- C8: an adapter connect notification for device `d` on an allowed list of
device records replaces the matching entry in place and emits a `connect`
event carrying the new record when some entry has `d`'s identity triple;
otherwise it emits nothing and leaves the allowed list unchanged. -/
theorem C8_connect_notification_relay (d : USBDevice) (l : List USBDevice) :
    deviceConnectCallback d (l.map some)
      = .ok (if l.any (fun e => isSameDevice d e)
          then ((specReplaceFirst d l).map some, some d)
          else (l.map some, none)) := by
  unfold deviceConnectCallback
  rw [replaceLoop_map_some]
  by_cases h : l.any (fun e => isSameDevice d e) = true
  · simp [h]
  · simp only [Bool.not_eq_true] at h
    simp [h]

/-- C9: a numeric criterion set to `0` behaves exactly as an absent one, both
in `matchFilter` and in the hierarchy validation (`zeroNorm` replaces every
explicit `0` by an absent field without changing either outcome); a filter
whose five numeric criteria are all `0` matches every device; and a filter
with `protocolCode = p` (`p ≠ 0`) and `subclassCode = 0` fails validation
with the "subclass code is required" kind, `0` counting as unset. -/
theorem C9_zero_criterion_is_wildcard (f : USBDeviceFilter) (d : USBDevice)
    (p : Nat) (hp : p ≠ 0) :
    matchFilter (zeroNorm f) d = matchFilter f d
      ∧ checkFilter (zeroNorm f) = checkFilter f
      ∧ matchFilter ⟨some 0, some 0, some 0, some 0, some 0, none⟩ d = true
      ∧ checkFilter { f with protocolCode := some p, subclassCode := some 0 }
          = some .subclassRequired := by
  refine ⟨?_, ?_, ?_, ?_⟩
  · simp only [matchFilter]
    rw [matchIface_zeroNorm]
    simp only [zeroNorm, chkN_zeroToNone, truthyN_zeroToNone]
  · simp only [checkFilter, zeroNorm, truthyN_zeroToNone]
  · simp [matchFilter, chkN, chkS, truthyN, truthyS]
  · simp [checkFilter, truthyN, hp]

/-- C9, witness at the concrete filter `fltW` (vendor criterion `0`, class
criterion `3`), device `devA` and protocol code `5`. -/
theorem C9_witness :
    (5 : Nat) ≠ 0
      ∧ (matchFilter (zeroNorm fltW) devA = matchFilter fltW devA
        ∧ checkFilter (zeroNorm fltW) = checkFilter fltW
        ∧ matchFilter ⟨some 0, some 0, some 0, some 0, some 0, none⟩ devA = true
        ∧ checkFilter { fltW with protocolCode := some 5, subclassCode := some 0 }
            = some .subclassRequired) :=
  ⟨by decide, C9_zero_criterion_is_wildcard fltW devA 5 (by decide)⟩

/-- C10: when the configured selection callback resolves with device `d`,
`requestDevice` performs no membership check against the matched candidate
list: it resolves with `d` and applies the replace-or-append update to the
allowed list, for an arbitrary `d` — in particular one matching no filter of
the request. -/
theorem C10_callback_result_not_validated
    (cb : List USBDevice → Option USBDevice) (adDevices : List USBDevice)
    (options : USBDeviceRequestOptions) (l : List USBDevice) (d : USBDevice)
    (hv : checkFilters options.filters = none)
    (hm : adDevices.filter (fun x => filterDevice options x) ≠ [])
    (hcb : cb (adDevices.filter (fun x => filterDevice options x)) = some d) :
    requestDevice (some cb) (.ok adDevices) options (l.map some)
      = ⟨.ok d, (specReplaceOrAppend d l).map some, true⟩ := by
  unfold requestDevice
  rw [hv]
  rcases hfl : adDevices.filter (fun x => filterDevice options x) with _ | ⟨d0, rest⟩
  · exact absurd hfl hm
  · rw [hfl] at hcb
    simp only [hfl, hcb, selectFn_map_some]

/-- C10, witness: the request matches only vendor-1 devices and the adapter
lists `devA` (vendor 1), but the callback returns `devC` (vendor 9, matching
no filter); the operation still resolves with `devC` and appends it to the
allowed list. -/
theorem C10_witness :
    checkFilters optsW.filters = none
      ∧ [devA].filter (fun x => filterDevice optsW x) ≠ []
      ∧ filterDevice optsW devC = false
      ∧ requestDevice (some (fun _ => some devC)) (.ok [devA]) optsW []
          = ⟨.ok devC, [some devC], true⟩ :=
  ⟨by decide, by decide, by decide,
    C10_callback_result_not_validated (fun _ => some devC) [devA] optsW [] devC
      (by decide) (by decide) rfl⟩

end WebUSB
